import Mathlib

/-
Verification of the dhcpkit_vpp protocol codec (Ethernet / IPv6 / UDP), the
ones-complement checksum engine, and the VPP punt-channel listener logic.

Byte buffers are modelled as `List Nat`; every byte of a real Python `bytes`
value satisfies `b < 256`.  Python slicing (which clamps out-of-range bounds)
is modelled by `pySlice`; reads that raise IndexError / struct.error in Python
(which are not ValueError, hence not caught by the listener) are modelled as
`Option` results mapped to a distinguished error constructor.

Arithmetic written with shifts and masks in the Python source is translated
into division and remainder by the corresponding power of two; these pairs
(x >> k and x / 2^k, x & (2^k - 1) and x % 2^k) agree on all naturals.
Bit-or expressions whose operands occupy disjoint bit ranges for in-range
field values (the only values the enclosing bytearray construction accepts)
are written additively; the comment at each such line records the source
expression.
-/

/-- Python slice buffer[start:stop] (clamping, never failing). -/
def pySlice (buffer : List Nat) (start stop : Nat) : List Nat :=
  (buffer.take stop).drop start

/-- struct.unpack_from with a big-endian 16-bit field at offset; fails
(struct.error) when fewer than two bytes are available. -/
def unpackH (buffer : List Nat) (offset : Nat) : Option Nat :=
  match buffer[offset]?, buffer[offset+1]? with
  | some a, some b => some (a * 256 + b)
  | _, _ => none

/-- struct.unpack_from with a big-endian 32-bit field at offset. -/
def unpackI (buffer : List Nat) (offset : Nat) : Option Nat :=
  match buffer[offset]?, buffer[offset+1]?, buffer[offset+2]?, buffer[offset+3]? with
  | some a, some b, some c, some d =>
      some (a * 16777216 + b * 65536 + c * 256 + d)
  | _, _, _, _ => none

/-- struct.pack with a big-endian 16-bit field; the source raises for values
outside [0, 2^16), which never happens for the in-range fields the theorems
quantify over. -/
def pack16 (x : Nat) : List Nat :=
  [x / 256 % 256, x % 256]

/-- struct.pack with a big-endian 32-bit field. -/
def pack32 (x : Nat) : List Nat :=
  [x / 16777216 % 256, x / 65536 % 256, x / 256 % 256, x % 256]

/-- Translation of the idiom max_length = length or (len(buffer) - offset)
shared by every load_from method: a missing length AND an explicit length of
zero (zero is falsy in Python) both fall back to the remaining buffer size. -/
def effLength (buffer : List Nat) (offset : Nat) (length : Option Nat) : Nat :=
  match length with
  | none => buffer.length - offset
  | some 0 => buffer.length - offset
  | some n => n

/-- Loop of ones_complement_checksum (protocols/utils.py): iterates in steps
of two; msg[i+1] raises IndexError on an odd-length message, modelled as
`none`.  The final expression models the complement mask on the accumulator:
for a nonnegative accumulator x, the complement masked to 16 bits equals
65535 - x % 65536. -/
def checksum_loop : List Nat → Nat → Option Nat
  | [], acc => some (65535 - acc % 65536)
  | [_], _ => none
  | a :: b :: rest, acc =>
      let c := acc + (a * 256 + b)
      checksum_loop rest (c % 65536 + c / 65536)

/-- ones_complement_checksum from protocols/utils.py. -/
def ones_complement_checksum (msg : List Nat) : Option Nat :=
  checksum_loop msg 0

/-- UDP datagram (protocols/layer4.py). -/
structure UDP where
  source_port : Nat
  destination_port : Nat
  checksum : Nat
  payload : List Nat
deriving DecidableEq, Repr

/-- UDP.length property: len(self.payload) + 8. -/
def UDP.length (u : UDP) : Nat :=
  u.payload.length + 8

/-- Layer 4 payload of an IPv6 packet: either a recognized UDP datagram or
UnknownLayer4Protocol carrying raw bytes. -/
inductive L4 where
  | udp (u : UDP)
  | unknownLayer4 (data : List Nat)
deriving DecidableEq, Repr

/-- length property across the layer 4 variants (UnknownLayer4Protocol.length
is len(self.data)). -/
def L4.length : L4 → Nat
  | .udp u => u.length
  | .unknownLayer4 data => data.length

/-- protocol_number: 17 for UDP, the Layer4Protocol base default 0 for the
unknown variant. -/
def L4.protocol_number : L4 → Nat
  | .udp _ => 17
  | .unknownLayer4 _ => 0

/-- IPv6 packet (protocols/layer3.py); the addresses are the 16-byte packed
forms of the IPv6Address objects. -/
structure IPv6 where
  traffic_class : Nat
  flow_label : Nat
  next_header : Nat
  hop_limit : Nat
  source : List Nat
  destination : List Nat
  payload : L4
deriving DecidableEq, Repr

/-- IPv6.get_pseudo_header: source + destination + pack of the payload length
as 32 bits, three zero pad bytes, and the payload protocol number. -/
def IPv6.get_pseudo_header (p : IPv6) (l4_payload : L4) : List Nat :=
  p.source ++ p.destination ++ pack32 l4_payload.length ++
    [0, 0, 0, l4_payload.protocol_number % 256]

/-- UDP.save with zero_checksum=True: header with a zero checksum field,
then the payload (the zero branch of UDP.save, factored out so that
UDP.calculate_checksum can call it). -/
def UDP.save_zero (u : UDP) : List Nat :=
  pack16 u.source_port ++ pack16 u.destination_port ++ pack16 u.length ++
    [0, 0] ++ u.payload

/-- UDP.calculate_checksum: pseudo header plus the zero-checksum
serialization, padded with one zero byte when of odd length, fed to
ones_complement_checksum.  The padded message always has even length, so the
loop never hits its odd-index failure and the default of getD is never
used (checksum_loop_even_isSome below). -/
def UDP.calculate_checksum (u : UDP) (l3_packet : IPv6) : Nat :=
  let msg := l3_packet.get_pseudo_header (.udp u) ++ u.save_zero
  let msg := if msg.length % 2 = 1 then msg ++ [0] else msg
  (ones_complement_checksum msg).getD 0

/-- UDP.save.  The source mutates self.checksum when recalculation is
requested; the returned pair is (buffer, datagram after the call).  With
zero_checksum=True a zero checksum field is written and no recalculation
happens even when recalculate_checksum_for is supplied. -/
def UDP.save (u : UDP) (zero_checksum : Bool)
    (recalculate_checksum_for : Option IPv6) : List Nat × UDP :=
  if zero_checksum then
    (u.save_zero, u)
  else
    let u' := match recalculate_checksum_for with
      | some l3_packet => { u with checksum := u.calculate_checksum l3_packet }
      | none => u
    (pack16 u'.source_port ++ pack16 u'.destination_port ++ pack16 u'.length ++
      pack16 u'.checksum ++ u'.payload, u')

/-- save across the layer 4 variants (UnknownLayer4Protocol.save returns
self.data and ignores both arguments). -/
def L4.save (l4 : L4) (zero_checksum : Bool) (recalculate_checksum_for : Option IPv6) :
    List Nat × L4 :=
  match l4 with
  | .udp u =>
      let r := u.save zero_checksum recalculate_checksum_for
      (r.1, .udp r.2)
  | .unknownLayer4 data => (data, .unknownLayer4 data)

/-- IPv6.save.  The first four bytes translate, for field values in the
ranges the enclosing bytearray accepts (traffic_class < 256,
flow_label < 2^20), the source expressions
6 << 4 | traffic_class >> 4,
(traffic_class & 0x0f) << 4 | flow_label >> 16,
(flow_label >> 8) & 0xff and flow_label & 0xff;
in each bit-or the operands occupy disjoint bit ranges, so it is written
additively.  The payload is saved with recalculate_checksum_for=self
(both layer 4 variants are Layer4Protocol instances), and its length is
written back as the payload length field. -/
def IPv6.save (p : IPv6) : List Nat × IPv6 :=
  let r := p.payload.save false (some p)
  let payload := r.1
  ([96 + p.traffic_class / 16,
    (p.traffic_class % 16) * 16 + p.flow_label / 65536,
    p.flow_label / 256 % 256,
    p.flow_label % 256] ++
   pack16 payload.length ++ [p.next_header % 256, p.hop_limit % 256] ++
   p.source ++ p.destination ++ payload,
   { p with payload := r.2 })

/-- Layer 3 payload of an Ethernet frame: either a recognized IPv6 packet or
UnknownLayer3Packet carrying raw bytes. -/
inductive L3 where
  | ipv6 (p : IPv6)
  | unknownLayer3 (data : List Nat)
deriving DecidableEq, Repr

/-- save across the layer 3 variants (UnknownLayer3Packet inherits the
UnknownProtocolElement save, which returns self.data). -/
def L3.save (l3 : L3) : List Nat × L3 :=
  match l3 with
  | .ipv6 p =>
      let r := p.save
      (r.1, .ipv6 r.2)
  | .unknownLayer3 data => (data, .unknownLayer3 data)

/-- Ethernet frame (protocols/layer2.py). -/
structure Ethernet where
  destination : List Nat
  source : List Nat
  ethertype : Nat
  payload : L3
deriving DecidableEq, Repr

/-- Ethernet.save: destination + source + packed ethertype + payload save. -/
def Ethernet.save (f : Ethernet) : List Nat × Ethernet :=
  let r := f.payload.save
  (f.destination ++ f.source ++ pack16 f.ethertype ++ r.1,
   { f with payload := r.2 })

/-- Errors raised by parsing.  The first four model the distinct ValueError
messages of the sources (too short, wrong IPv6 version, payload longer than
the available buffer, IPv6Address rejecting a slice that is not 16 bytes);
hardFault models IndexError / struct.error raised by out-of-range reads,
which are not ValueError and hence never caught by the listener. -/
inductive PErr where
  | tooShort
  | wrongVersion
  | overrun
  | badAddress
  | hardFault
deriving DecidableEq, Repr

/-- Modelled from the spec: UnknownProtocolElement.load_from lives in the
external dhcpkit package, not in this repository.  The spec states that the
unknown variant "simply captures the remaining declared bytes untouched":
it takes effLength bytes (the shared length-or-remaining idiom) from the
buffer and consumes exactly the bytes captured. -/
def UnknownProtocolElement.load_from (buffer : List Nat) (offset : Nat)
    (length : Option Nat) : Nat × List Nat :=
  let max_length := effLength buffer offset length
  let data := pySlice buffer offset (offset + max_length)
  (data.length, data)

/-- UDP.load_from: fails below eight available bytes, reads the four header
fields (struct '!HHHH'), fails when the declared total length is below
eight, fails when the declared payload exceeds the remaining budget, then
captures the declared number of payload bytes. -/
def UDP.load_from (buffer : List Nat) (offset : Nat) (length : Option Nat) :
    Except PErr (Nat × UDP) :=
  let max_length := effLength buffer offset length
  if max_length < 8 then .error .tooShort
  else
    match unpackH buffer offset, unpackH buffer (offset+2),
          unpackH buffer (offset+4), unpackH buffer (offset+6) with
    | some source_port, some destination_port, some payload_len, some checksum =>
      if payload_len < 8 then .error .tooShort
      else
        let payload_len := payload_len - 8
        let max_payload_len := max_length - 8
        if payload_len > max_payload_len then .error .overrun
        else
          .ok (8 + payload_len,
               { source_port := source_port, destination_port := destination_port,
                 checksum := checksum,
                 payload := pySlice buffer (offset + 8) (offset + 8 + payload_len) })
    | _, _, _, _ => .error .hardFault

/-- IPv6Address applied to a slice of the buffer: succeeds exactly on
16-byte slices (protocols/layer3.py builds the addresses this way). -/
def readAddress (buffer : List Nat) (start : Nat) : Except PErr (List Nat) :=
  let a := pySlice buffer start (start + 16)
  if a.length = 16 then .ok a else .error .badAddress

/-- IPv6.load_from: minimum length check, version check on the top four bits
of the first byte, header field extraction, overrun check of the declared
payload length against the remaining budget, then delegation to the layer 4
codec selected by next_header through the layer 4 registry (entry 17 maps to
UDP per setup.py; anything else falls back to UnknownLayer4Protocol), passing
the declared payload length as the budget. -/
def IPv6.load_from (buffer : List Nat) (offset : Nat) (length : Option Nat) :
    Except PErr (Nat × IPv6) :=
  let max_length := effLength buffer offset length
  if max_length < 40 then .error .tooShort
  else
    match buffer[offset]? with
    | none => .error .hardFault
    | some b0 =>
      if b0 / 16 ≠ 6 then .error .wrongVersion
      else
        match unpackH buffer offset, unpackI buffer offset,
              unpackH buffer (offset+4), buffer[offset+6]?, buffer[offset+7]? with
        | some h0, some w0, some payload_len, some next_header, some hop_limit =>
          let traffic_class := h0 / 16 % 256
          let flow_label := w0 % 1048576
          match readAddress buffer (offset + 8), readAddress buffer (offset + 24) with
          | .ok source, .ok destination =>
            let max_payload_len := max_length - 40
            if payload_len > max_payload_len then .error .overrun
            else
              let sub :=
                if next_header = 17 then
                  (UDP.load_from buffer (offset + 40) (some payload_len)).map
                    (fun r => (r.1, L4.udp r.2))
                else
                  let r := UnknownProtocolElement.load_from buffer (offset + 40)
                             (some payload_len)
                  .ok (r.1, L4.unknownLayer4 r.2)
              sub.map (fun r =>
                (40 + r.1,
                 { traffic_class := traffic_class, flow_label := flow_label,
                   next_header := next_header, hop_limit := hop_limit,
                   source := source, destination := destination, payload := r.2 }))
          | .error e, _ => .error e
          | _, .error e => .error e
        | _, _, _, _, _ => .error .hardFault

/-- Ethernet.load_from: minimum length check, MAC and ethertype extraction
(the ethertype is unpacked from a two-byte slice), then delegation to the
layer 3 codec selected by the ethertype through the layer 3 registry (entry
34525 = 0x86DD maps to IPv6 per setup.py; anything else falls back to
UnknownLayer3Packet), passing the remaining budget. -/
def Ethernet.load_from (buffer : List Nat) (offset : Nat) (length : Option Nat) :
    Except PErr (Nat × Ethernet) :=
  let max_length := effLength buffer offset length
  if max_length < 14 then .error .tooShort
  else
    let destination := pySlice buffer offset (offset + 6)
    let source := pySlice buffer (offset + 6) (offset + 12)
    match unpackH (pySlice buffer (offset + 12) (offset + 14)) 0 with
    | none => .error .hardFault
    | some ethertype =>
      let max_payload_len := max_length - 14
      let sub :=
        if ethertype = 34525 then
          (IPv6.load_from buffer (offset + 14) (some max_payload_len)).map
            (fun r => (r.1, L3.ipv6 r.2))
        else
          let r := UnknownProtocolElement.load_from buffer (offset + 14)
                     (some max_payload_len)
          .ok (r.1, L3.unknownLayer3 r.2)
      sub.map (fun r =>
        (14 + r.1,
         { destination := destination, source := source,
           ethertype := ethertype, payload := r.2 }))

/-- UDP.validate: both ports and the checksum must be unsigned 16-bit
integers and the payload must be a bytes value (every element below 256). -/
def UDP.validate (u : UDP) : Bool :=
  u.source_port < 65536 && u.destination_port < 65536 && u.checksum < 65536 &&
    u.payload.all (fun b => b < 256)

/-- validate across the layer 4 variants (the unknown variant carries a
bytes value). -/
def L4.validate : L4 → Bool
  | .udp u => u.validate
  | .unknownLayer4 data => data.all (fun b => b < 256)

/-- is_multicast of a packed IPv6 address: member of ff00::/8, that is, the
first byte is 255. -/
def is_multicast (address : List Nat) : Bool :=
  address.head? = some 255

/-- IPv6.validate: bit-width checks on the four header fields, both
addresses must be valid (16 bytes), the source must not be multicast, and
the payload must validate. -/
def IPv6.validate (p : IPv6) : Bool :=
  p.traffic_class < 256 && p.flow_label < 1048576 &&
    p.next_header < 256 && p.hop_limit < 256 &&
    p.source.length = 16 && p.source.all (fun b => b < 256) &&
    !is_multicast p.source &&
    p.destination.length = 16 && p.destination.all (fun b => b < 256) &&
    p.payload.validate

/-- validate across the layer 3 variants. -/
def L3.validate : L3 → Bool
  | .ipv6 p => p.validate
  | .unknownLayer3 data => data.all (fun b => b < 256)

/-- Ethernet.validate: both MAC addresses must be exactly six bytes, the
ethertype an unsigned 16-bit integer, and the payload must validate. -/
def Ethernet.validate (f : Ethernet) : Bool :=
  f.destination.length = 6 && f.destination.all (fun b => b < 256) &&
    f.source.length = 6 && f.source.all (fun b => b < 256) &&
    f.ethertype < 65536 && f.payload.validate

/-- Modelled from the spec: the well-known DHCPv6 server port, imported by
the listener from the external dhcpkit package. -/
def SERVER_PORT : Nat := 547

/-- Modelled from the spec: the well-known DHCPv6 client port, imported by
the listener from the external dhcpkit package. -/
def CLIENT_PORT : Nat := 546

/-- struct.unpack of one native-byte-order signed 32-bit integer
(format code i); native order is modelled as little-endian. -/
def unpack_i32 (buffer : List Nat) (offset : Nat) : Option Int :=
  match buffer[offset]?, buffer[offset+1]?, buffer[offset+2]?, buffer[offset+3]? with
  | some a, some b, some c, some d =>
      let u := a + b * 256 + c * 65536 + d * 16777216
      some (if u < 2147483648 then (u : Int) else (u : Int) - 4294967296)
  | _, _, _, _ => none

/-- struct.pack of one native-byte-order signed 32-bit integer, modelled as
little-endian. -/
def pack_i32 (x : Int) : List Nat :=
  let u := (x % 4294967296).toNat
  [u % 256, u / 256 % 256, u / 65536 % 256, u / 16777216 % 256]

/-- Interface descriptor handed to the listener (vpp_interface.py), read
only; the control-plane handle of the source class is outside the model. -/
structure VPPInterface where
  name : String
  index : Int
  mac_address : List Nat
  accept_unicast : Bool
  accept_multicast : Bool
  reply_from : List Nat
  link_address : List Nat
deriving DecidableEq, Repr

/-- Ignorable signals raised by VPPListener.recv_request.  incompleteMessage
is the IncompleteMessage (TooShort) signal; the three VPP signals are the
classes of listeners/vpp/init.  hardFault models a non-ValueError
exception escaping the parse block uncaught (proved unreachable below). -/
inductive RecvError where
  | incompleteMessage
  | unknownVPPAction
  | unknownVPPInterface
  | unwantedVPPMessage
  | hardFault
deriving DecidableEq, Repr

/-- IncomingPacketBundle as assembled by recv_request; message_id holds the
counter value formatted into the identifier string by the source. -/
structure IncomingPacketBundle where
  message_id : Nat
  data : List Nat
  source_address : List Nat
  link_address : List Nat
  interface_index : Int
  received_over_multicast : Bool
  marks : List String
  relay_interface_id : String
  relay_link_layer_address : List Nat
deriving DecidableEq, Repr

/-- VPPReplier (vpp.py); the reply socket it shares with the listener is
modelled at the send_reply call instead. -/
structure VPPReplier where
  interface_index : Int
  interface_mac_address : List Nat
  client_mac_address : List Nat
  reply_from : List Nat
deriving DecidableEq, Repr

/-- VPPListener.recv_request on one datagram read from the channel.  The
socket read and the global message counter are modelled as the data and
message_counter arguments; everything after the read is the source logic:
length gate, envelope decode, action gate, interface resolution (first
matching index), Ethernet parse at offset 8 with every ValueError folded
into UnwantedVPPMessage, the innermost-UDP and server-port requirement, the
per-interface multicast/unicast policy, and finally the bundle/replier
pair. -/
def recv_request (interfaces : List VPPInterface) (marks : List String)
    (message_counter : Nat) (data : List Nat) :
    Except RecvError (IncomingPacketBundle × VPPReplier) :=
  if data.length < 70 then .error .incompleteMessage
  else
    match unpack_i32 data 0, unpack_i32 data 4 with
    | some if_index, some action =>
      if action ≠ 0 then .error .unknownVPPAction
      else
        match interfaces.find? (fun i => i.index == if_index) with
        | none => .error .unknownVPPInterface
        | some interface =>
          match Ethernet.load_from data 8 none with
          | .error e =>
            if e = .hardFault then .error .hardFault
            else .error .unwantedVPPMessage
          | .ok (_, frame) =>
            match frame.payload with
            | .ipv6 p =>
              match p.payload with
              | .udp u =>
                if u.destination_port ≠ SERVER_PORT then
                  .error .unwantedVPPMessage
                else if is_multicast p.destination && !interface.accept_multicast then
                  .error .unwantedVPPMessage
                else if !is_multicast p.destination && !interface.accept_unicast then
                  .error .unwantedVPPMessage
                else
                  .ok ({ message_id := message_counter,
                         data := u.payload,
                         source_address := p.source,
                         link_address := interface.link_address,
                         interface_index := interface.index,
                         received_over_multicast := is_multicast p.destination,
                         marks := marks,
                         relay_interface_id := interface.name,
                         relay_link_layer_address := frame.source },
                       { interface_index := interface.index,
                         interface_mac_address := interface.mac_address,
                         client_mac_address := frame.source,
                         reply_from := interface.reply_from })
              | _ => .error .unwantedVPPMessage
            | _ => .error .unwantedVPPMessage
    | _, _ => .error .hardFault

/-- Outgoing RelayReplyMessage as seen by VPPReplier.send_reply:
whether its relayed_message is itself a RelayReplyMessage, the bytes that
relayed_message.save() produces, and the peer address to send to. -/
structure OutgoingMessage where
  relayed_is_relay_reply : Bool
  relayed_message_bytes : List Nat
  peer_address : List Nat
deriving DecidableEq, Repr

/-- VPPReplier.send_reply.  The channel is modelled by the sent_length
argument: the byte count the socket send call reports as accepted.  Returns
the success boolean of the source together with the datagram written to the
channel: the eight-byte envelope (interface index, action 0) followed by the
saved Ethernet(IPv6(UDP)) frame built from the reply context, the
destination port chosen by whether the relayed message is itself
relay-wrapped. -/
def VPPReplier.send_reply (r : VPPReplier) (outgoing_message : OutgoingMessage)
    (sent_length : Nat) : Bool × List Nat :=
  let port := if outgoing_message.relayed_is_relay_reply then SERVER_PORT
              else CLIENT_PORT
  let frame : Ethernet :=
    { destination := r.client_mac_address,
      source := r.interface_mac_address,
      ethertype := 0x86DD,
      payload := .ipv6
        { traffic_class := 0xc0, flow_label := 0, next_header := 17,
          hop_limit := 63,
          source := r.reply_from,
          destination := outgoing_message.peer_address,
          payload := .udp
            { source_port := SERVER_PORT, destination_port := port,
              checksum := 0,
              payload := outgoing_message.relayed_message_bytes } } }
  let data := pack_i32 r.interface_index ++ pack_i32 0 ++ frame.save.1
  (data.length == sent_length, data)

deriving instance DecidableEq for Except

/-- Test payload "Demo UDP packet!" as bytes (tests/protocols). -/
def demo_udp_payload : List Nat :=
  [68, 101, 109, 111, 32, 85, 68, 80, 32, 112, 97, 99, 107, 101, 116, 33]

/-- Test payload "Demo UDP packet" as bytes (odd length). -/
def demo_udp_payload_odd : List Nat :=
  [68, 101, 109, 111, 32, 85, 68, 80, 32, 112, 97, 99, 107, 101, 116]

/-- Packed form of the IPv6 address 2001:9e0::3:2002. -/
def fixture_source_address : List Nat :=
  [0x20, 0x01, 0x09, 0xe0, 0, 0, 0, 0, 0, 0, 0, 0, 0, 0x03, 0x20, 0x02]

/-- Packed form of the IPv6 address 2001:9e0:4:32:212:45:32:222. -/
def fixture_destination_address : List Nat :=
  [0x20, 0x01, 0x09, 0xe0, 0x00, 0x04, 0x00, 0x32,
   0x02, 0x12, 0x00, 0x45, 0x00, 0x32, 0x02, 0x22]

/-- UDP datagram of the full-chain fixture (tests/protocols/test_layer2.py). -/
def fixture_udp : UDP :=
  { source_port := 4660, destination_port := 22136, checksum := 42645,
    payload := demo_udp_payload }

/-- IPv6 packet used as the checksum context in
tests/protocols/test_layer4.py: only source and destination matter to
get_pseudo_header. -/
def dummy_ipv6 : IPv6 :=
  { traffic_class := 0, flow_label := 0, next_header := 0, hop_limit := 0,
    source := fixture_source_address,
    destination := fixture_destination_address,
    payload := .unknownLayer4 [] }

/-- The full-chain fixture bytes of tests/protocols/test_layer2.py:
Ethernet header (14), IPv6 header (40), UDP header (8), 16 payload bytes. -/
def fixture_bytes : List Nat :=
  [0x01, 0x23, 0x45, 0x67, 0x89, 0xab, 0xcd, 0xef, 0x01, 0x23, 0x45, 0x67,
   0x86, 0xdd,
   0x6e, 0xfb, 0xcd, 0xef, 0x00, 0x18, 0x11, 0xfd] ++
  fixture_source_address ++ fixture_destination_address ++
  [0x12, 0x34, 0x56, 0x78, 0x00, 0x18, 0xa6, 0x95] ++ demo_udp_payload

/-- The structured value the full-chain fixture parses to. -/
def fixture_frame : Ethernet :=
  { destination := [0x01, 0x23, 0x45, 0x67, 0x89, 0xab],
    source := [0xcd, 0xef, 0x01, 0x23, 0x45, 0x67],
    ethertype := 0x86dd,
    payload := .ipv6
      { traffic_class := 239, flow_label := 773615, next_header := 17,
        hop_limit := 253,
        source := fixture_source_address,
        destination := fixture_destination_address,
        payload := .udp fixture_udp } }

/-- A structurally valid IPv6 packet whose UDP payload carries a stored
checksum (zero) different from the value serialization recomputes. -/
def stale_checksum_packet : IPv6 :=
  { traffic_class := 0, flow_label := 0, next_header := 17, hop_limit := 0,
    source := [0, 0, 0, 0, 0, 0, 0, 0, 0, 0, 0, 0, 0, 0, 0, 1],
    destination := [0, 0, 0, 0, 0, 0, 0, 0, 0, 0, 0, 0, 0, 0, 0, 1],
    payload := .udp
      { source_port := 0, destination_port := 0, checksum := 0, payload := [] } }

/-- Well-formedness of a UDP datagram for round-tripping: ports and
checksum are unsigned 16-bit integers (as validate requires) and the total
length fits the 16-bit length field (as the struct pack in save requires). -/
def UDP.wf (u : UDP) : Prop :=
  u.source_port < 65536 ∧ u.destination_port < 65536 ∧ u.checksum < 65536 ∧
    u.payload.length + 8 < 65536

/-- Consistency of a layer 4 payload with its enclosing packet: the wire
discriminant written by the header must select the codec that produced the
payload variant on the parse side, and for UDP the stored checksum must
already equal the value serialization recomputes. -/
def L4.consistentWith : L4 → IPv6 → Prop
  | .udp u, p => p.next_header = 17 ∧ u.wf ∧ u.checksum = u.calculate_checksum p
  | .unknownLayer4 data, p => p.next_header ≠ 17 ∧ data.length < 65536

/-- Well-formedness of an IPv6 packet for round-tripping: header fields
within their bit widths, 16-byte addresses, and a consistent payload. -/
def IPv6.wf (p : IPv6) : Prop :=
  p.traffic_class < 256 ∧ p.flow_label < 1048576 ∧ p.next_header < 256 ∧
    p.hop_limit < 256 ∧ p.source.length = 16 ∧ p.destination.length = 16 ∧
    p.payload.consistentWith p

/-- Consistency of a layer 3 payload with its enclosing frame: the
ethertype must select the codec that produced the payload variant. -/
def L3.consistentWith : L3 → Ethernet → Prop
  | .ipv6 p, f => f.ethertype = 34525 ∧ p.wf
  | .unknownLayer3 _, f => f.ethertype ≠ 34525

/-- Well-formedness of an Ethernet frame for round-tripping: six-byte MAC
addresses, 16-bit ethertype, and a consistent payload. -/
def Ethernet.wf (f : Ethernet) : Prop :=
  f.destination.length = 6 ∧ f.source.length = 6 ∧ f.ethertype < 65536 ∧
    f.payload.consistentWith f

/-- Interface descriptor used by the listener witness: matches the fixture
frame source MAC, accepts unicast only. -/
def vpp_interface_fixture : VPPInterface :=
  { name := "testif", index := 1,
    mac_address := [0xcd, 0xef, 0x01, 0x23, 0x45, 0x67],
    accept_unicast := true, accept_multicast := false,
    reply_from := fixture_source_address,
    link_address := fixture_source_address }

/-- UDP datagram of the listener fixture: destined to the DHCPv6 server
port. -/
def vpp_udp_fixture : UDP :=
  { source_port := 4660, destination_port := 547, checksum := 42645,
    payload := demo_udp_payload }

/-- IPv6 packet of the listener fixture. -/
def vpp_ipv6_fixture : IPv6 :=
  { traffic_class := 239, flow_label := 773615, next_header := 17,
    hop_limit := 253,
    source := fixture_source_address,
    destination := fixture_destination_address,
    payload := .udp vpp_udp_fixture }

/-- Ethernet frame of the listener fixture. -/
def vpp_frame_fixture : Ethernet :=
  { destination := [0x01, 0x23, 0x45, 0x67, 0x89, 0xab],
    source := [0xcd, 0xef, 0x01, 0x23, 0x45, 0x67],
    ethertype := 0x86dd, payload := .ipv6 vpp_ipv6_fixture }

/-- Channel datagram of the listener fixture: the eight-byte envelope
(interface index 1, action 0, little-endian) followed by the frame bytes
with the UDP destination port replaced by the DHCPv6 server port 547. -/
def vpp_data_fixture : List Nat :=
  [1, 0, 0, 0, 0, 0, 0, 0] ++
  [0x01, 0x23, 0x45, 0x67, 0x89, 0xab, 0xcd, 0xef, 0x01, 0x23, 0x45, 0x67,
   0x86, 0xdd,
   0x6e, 0xfb, 0xcd, 0xef, 0x00, 0x18, 0x11, 0xfd] ++
  fixture_source_address ++ fixture_destination_address ++
  [0x12, 0x34, 0x02, 0x23, 0x00, 0x18, 0xa6, 0x95] ++ demo_udp_payload

theorem checksum_loop_isSome (msg : List Nat) (acc : Nat) :
    (checksum_loop msg acc).isSome ↔ msg.length % 2 = 0 := by
  match msg with
  | [] => simp [checksum_loop]
  | [a] => simp [checksum_loop]
  | a :: b :: rest =>
    rw [checksum_loop]
    rw [checksum_loop_isSome rest]
    simp only [List.length_cons]
    omega

/-- C2: the UDP checksum computed against the IPv6 pseudo-header for the
fixture addresses and ports equals 42645 for the 16-byte payload
"Demo UDP packet!" and 42680 for the 15-byte payload "Demo UDP packet". -/
theorem checksum_demo_values :
    UDP.calculate_checksum
        { source_port := 4660, destination_port := 22136, checksum := 0,
          payload := demo_udp_payload } dummy_ipv6 = 42645 ∧
    UDP.calculate_checksum
        { source_port := 4660, destination_port := 22136, checksum := 0,
          payload := demo_udp_payload_odd } dummy_ipv6 = 42680 := by
  constructor <;> decide

/-- C3: the full-chain fixture (62 header bytes followed by the 16-byte
payload) parses to the Ethernet frame with destination MAC
01:23:45:67:89:ab, source MAC cd:ef:01:23:45:67, ethertype 0x86dd, wrapping
the IPv6 packet (traffic class 239, flow label 773615, next header 17, hop
limit 253) wrapping the fixture UDP datagram (source port 4660, destination
port 22136, checksum 0xa695), consuming all 78 bytes; and serializing that
structure reproduces the fixture bytes exactly. -/
theorem full_chain_fixture :
    fixture_bytes.length = 78 ∧
    Ethernet.load_from fixture_bytes 0 none = .ok (78, fixture_frame) ∧
    fixture_frame.save.1 = fixture_bytes := by
  refine ⟨by decide, by decide, by decide⟩

/-- C4 (amended): the checksum engine succeeds exactly on even-length
inputs; an odd-length input hits the out-of-range read msg[i+1] instead of
being padded (the padding is performed by the caller,
UDP.calculate_checksum). -/
theorem checksum_engine_even_totality (msg : List Nat) :
    (ones_complement_checksum msg).isSome ↔ msg.length % 2 = 0 := by
  rw [ones_complement_checksum, checksum_loop_isSome]

/-- C4 (counterexample): the engine is not total over all byte sequences;
the one-byte input fails instead of being zero-padded. -/
theorem checksum_engine_odd_input_fails :
    ones_complement_checksum [68] = none := by
  decide

/-- C5 (code bug): with an explicitly supplied budget of zero, Ethernet
parsing of a fourteen-byte buffer consumes fourteen bytes, because the
length-or-remaining idiom treats the falsy zero budget as absent and falls
back to the whole remaining buffer. -/
theorem budget_zero_consumes_fourteen :
    Ethernet.load_from (List.replicate 14 0) 0 (some 0) =
      .ok (14, { destination := [0, 0, 0, 0, 0, 0], source := [0, 0, 0, 0, 0, 0],
                 ethertype := 0, payload := .unknownLayer3 [] }) := by
  decide

/-- C10: serializing a UDP datagram with zero_checksum=True writes a zero
checksum field and leaves the datagram unchanged even when a packet for
recalculation is supplied, while zero_checksum=False with a packet supplied
overwrites the stored checksum with the recomputed value and writes it. -/
theorem udp_save_checksum_effects (u : UDP) (p : IPv6) :
    (u.save true (some p)).1 =
      pack16 u.source_port ++ pack16 u.destination_port ++ pack16 u.length ++
        [0, 0] ++ u.payload ∧
    (u.save true (some p)).2 = u ∧
    (u.save false (some p)).2 = { u with checksum := u.calculate_checksum p } ∧
    (u.save false (some p)).1 =
      pack16 u.source_port ++ pack16 u.destination_port ++ pack16 u.length ++
        pack16 (u.calculate_checksum p) ++ u.payload := by
  refine ⟨rfl, rfl, rfl, rfl⟩

/-- C1 (counterexample): a structurally valid IPv6 packet whose stored UDP
checksum is stale does not round-trip: serialization recomputes the
checksum, so parsing the serialized bytes yields a different value. -/
theorem roundtrip_stale_checksum_fails :
    stale_checksum_packet.validate = true ∧
    IPv6.load_from stale_checksum_packet.save.1 0 none ≠
      .ok (stale_checksum_packet.save.1.length, stale_checksum_packet) := by
  refine ⟨by decide, by decide⟩

theorem getElem?_at0 (x1 : Nat) (r : List Nat) : (x1 :: r)[0]? = some x1 := by
  simp

theorem getElem?_at6 (x1 x2 x3 x4 x5 x6 x7 : Nat) (r : List Nat) :
    (x1 :: x2 :: x3 :: x4 :: x5 :: x6 :: x7 :: r)[6]? = some x7 := by
  simp

theorem getElem?_at7 (x1 x2 x3 x4 x5 x6 x7 x8 : Nat) (r : List Nat) :
    (x1 :: x2 :: x3 :: x4 :: x5 :: x6 :: x7 :: x8 :: r)[7]? = some x8 := by
  simp

theorem unpackH_at0 (x1 x2 : Nat) (r : List Nat) :
    unpackH (x1 :: x2 :: r) 0 = some (x1 * 256 + x2) := by
  simp [unpackH]

theorem unpackH_at2 (x1 x2 x3 x4 : Nat) (r : List Nat) :
    unpackH (x1 :: x2 :: x3 :: x4 :: r) 2 = some (x3 * 256 + x4) := by
  simp [unpackH]

theorem unpackH_at4 (x1 x2 x3 x4 x5 x6 : Nat) (r : List Nat) :
    unpackH (x1 :: x2 :: x3 :: x4 :: x5 :: x6 :: r) 4 = some (x5 * 256 + x6) := by
  simp [unpackH]

theorem unpackH_at6 (x1 x2 x3 x4 x5 x6 x7 x8 : Nat) (r : List Nat) :
    unpackH (x1 :: x2 :: x3 :: x4 :: x5 :: x6 :: x7 :: x8 :: r) 6 =
      some (x7 * 256 + x8) := by
  simp [unpackH]

theorem unpackI_at0 (x1 x2 x3 x4 : Nat) (r : List Nat) :
    unpackI (x1 :: x2 :: x3 :: x4 :: r) 0 =
      some (x1 * 16777216 + x2 * 65536 + x3 * 256 + x4) := by
  simp [unpackI]

theorem pySlice_eq_take_drop (l : List Nat) (a b : Nat) :
    pySlice l a b = (l.drop a).take (b - a) := by
  unfold pySlice
  rw [List.drop_take]

theorem effLength_none (l : List Nat) : effLength l 0 none = l.length := by
  simp [effLength]

theorem effLength_self (l : List Nat) : effLength l 0 (some l.length) = l.length := by
  unfold effLength
  match h : l.length with
  | 0 => simp
  | n + 1 => rfl

theorem getElem?_drop_add (buf : List Nat) (off i j : Nat) (h : j = off + i) :
    buf[j]? = (buf.drop off)[i]? := by
  rw [List.getElem?_drop]
  subst h
  rfl

theorem effLength_drop (buf : List Nat) (off : Nat) (len : Option Nat) :
    effLength buf off len = effLength (buf.drop off) 0 len := by
  unfold effLength
  cases len with
  | none => simp
  | some n =>
    cases n with
    | zero => simp
    | succ m => rfl

theorem unpackH_drop (buf : List Nat) (off k i : Nat) (h : k = off + i) :
    unpackH buf k = unpackH (buf.drop off) i := by
  unfold unpackH
  rw [getElem?_drop_add buf off i k h, getElem?_drop_add buf off (i+1) (k+1) (by omega)]

theorem unpackI_drop (buf : List Nat) (off k i : Nat) (h : k = off + i) :
    unpackI buf k = unpackI (buf.drop off) i := by
  unfold unpackI
  rw [getElem?_drop_add buf off i k h, getElem?_drop_add buf off (i+1) (k+1) (by omega),
      getElem?_drop_add buf off (i+2) (k+2) (by omega),
      getElem?_drop_add buf off (i+3) (k+3) (by omega)]

theorem pySlice_drop (buf : List Nat) (off a b a2 b2 : Nat)
    (ha : a2 = off + a) (hb : b2 = off + b) :
    pySlice buf a2 b2 = pySlice (buf.drop off) a b := by
  rw [pySlice_eq_take_drop, pySlice_eq_take_drop, List.drop_drop]
  subst ha hb
  have h1 : off + b - (off + a) = b - a := by omega
  rw [h1]

theorem readAddress_drop (buf : List Nat) (off s s2 : Nat) (h : s2 = off + s) :
    readAddress buf s2 = readAddress (buf.drop off) s := by
  unfold readAddress
  rw [pySlice_drop buf off s (s + 16) s2 (s2 + 16) h (by omega)]

theorem pySlice_udp_drop (buf : List Nat) (off n : Nat) :
    pySlice buf (off + 8) (off + 8 + n) = pySlice (buf.drop off) (0 + 8) (0 + 8 + n) :=
  pySlice_drop buf off (0+8) (0+8+n) (off+8) (off+8+n) (by omega) (by omega)

theorem UnknownPE_load_from_drop (buf : List Nat) (off : Nat) (len : Option Nat) :
    UnknownProtocolElement.load_from buf off len =
      UnknownProtocolElement.load_from (buf.drop off) 0 len := by
  unfold UnknownProtocolElement.load_from
  rw [effLength_drop buf off len]
  simp only []
  rw [pySlice_drop buf off 0 (0 + effLength (buf.drop off) 0 len)
        off (off + effLength (buf.drop off) 0 len) (by omega) (by omega)]

theorem UDP_load_from_drop (buf : List Nat) (off : Nat) (len : Option Nat) :
    UDP.load_from buf off len = UDP.load_from (buf.drop off) 0 len := by
  unfold UDP.load_from
  rw [effLength_drop buf off len]
  rw [unpackH_drop buf off off 0 (by omega)]
  rw [unpackH_drop buf off (off+2) (0+2) (by omega)]
  rw [unpackH_drop buf off (off+4) (0+4) (by omega)]
  rw [unpackH_drop buf off (off+6) (0+6) (by omega)]
  simp only [pySlice_udp_drop buf off]

theorem UDP_load_from_drop40 (buf : List Nat) (off : Nat) (len : Option Nat) :
    UDP.load_from buf (off + 40) len = UDP.load_from (buf.drop off) (0 + 40) len := by
  rw [UDP_load_from_drop buf (off+40) len, UDP_load_from_drop (buf.drop off) (0+40) len,
      List.drop_drop]

theorem UnknownPE_load_from_drop40 (buf : List Nat) (off : Nat) (len : Option Nat) :
    UnknownProtocolElement.load_from buf (off + 40) len =
      UnknownProtocolElement.load_from (buf.drop off) (0 + 40) len := by
  rw [UnknownPE_load_from_drop buf (off+40) len,
      UnknownPE_load_from_drop (buf.drop off) (0+40) len, List.drop_drop]

theorem IPv6_load_from_drop (buf : List Nat) (off : Nat) (len : Option Nat) :
    IPv6.load_from buf off len = IPv6.load_from (buf.drop off) 0 len := by
  unfold IPv6.load_from
  rw [effLength_drop buf off len]
  rw [getElem?_drop_add buf off 0 off (by omega)]
  rw [unpackH_drop buf off off 0 (by omega)]
  rw [unpackI_drop buf off off 0 (by omega)]
  rw [unpackH_drop buf off (off+4) (0+4) (by omega)]
  rw [getElem?_drop_add buf off (0+6) (off+6) (by omega)]
  rw [getElem?_drop_add buf off (0+7) (off+7) (by omega)]
  rw [readAddress_drop buf off (0+8) (off+8) (by omega)]
  rw [readAddress_drop buf off (0+24) (off+24) (by omega)]
  simp only [UDP_load_from_drop40 buf off, UnknownPE_load_from_drop40 buf off]

theorem IPv6_load_from_drop14 (buf : List Nat) (off : Nat) (len : Option Nat) :
    IPv6.load_from buf (off + 14) len = IPv6.load_from (buf.drop off) (0 + 14) len := by
  rw [IPv6_load_from_drop buf (off+14) len, IPv6_load_from_drop (buf.drop off) (0+14) len,
      List.drop_drop]

theorem UnknownPE_load_from_drop14 (buf : List Nat) (off : Nat) (len : Option Nat) :
    UnknownProtocolElement.load_from buf (off + 14) len =
      UnknownProtocolElement.load_from (buf.drop off) (0 + 14) len := by
  rw [UnknownPE_load_from_drop buf (off+14) len,
      UnknownPE_load_from_drop (buf.drop off) (0+14) len, List.drop_drop]

theorem Ethernet_load_from_drop (buf : List Nat) (off : Nat) (len : Option Nat) :
    Ethernet.load_from buf off len = Ethernet.load_from (buf.drop off) 0 len := by
  unfold Ethernet.load_from
  rw [effLength_drop buf off len]
  rw [pySlice_drop buf off 0 (0+6) off (off+6) (by omega) (by omega)]
  rw [pySlice_drop buf off (0+6) (0+12) (off+6) (off+12) (by omega) (by omega)]
  rw [pySlice_drop buf off (0+12) (0+14) (off+12) (off+14) (by omega) (by omega)]
  simp only [IPv6_load_from_drop14 buf off, UnknownPE_load_from_drop14 buf off]

theorem drop8_cons (x1 x2 x3 x4 x5 x6 x7 x8 : Nat) (r : List Nat) :
    List.drop 8 (x1::x2::x3::x4::x5::x6::x7::x8::r) = r := rfl

theorem UnknownPE_load_from_exact (l : List Nat) (len : Option Nat)
    (h : effLength l 0 len = l.length) :
    UnknownProtocolElement.load_from l 0 len = (l.length, l) := by
  unfold UnknownProtocolElement.load_from
  rw [h]
  simp only []
  rw [pySlice_eq_take_drop]
  simp

theorem UDP_load_from_exact (b1 b2 b3 b4 b5 b6 b7 b8 : Nat) (pl : List Nat)
    (len : Option Nat)
    (hL : b5 * 256 + b6 = pl.length + 8)
    (heff : effLength (b1::b2::b3::b4::b5::b6::b7::b8::pl) 0 len = pl.length + 8) :
    UDP.load_from (b1::b2::b3::b4::b5::b6::b7::b8::pl) 0 len =
      .ok (8 + pl.length,
           { source_port := b1*256+b2, destination_port := b3*256+b4,
             checksum := b7*256+b8, payload := pl }) := by
  unfold UDP.load_from
  rw [heff]
  simp only []
  rw [if_neg (by omega)]
  rw [unpackH_at0, unpackH_at2, unpackH_at4, unpackH_at6]
  simp only []
  rw [hL]
  rw [if_neg (by omega)]
  have hsub : pl.length + 8 - 8 = pl.length := by omega
  rw [hsub]
  rw [if_neg (by omega)]
  rw [pySlice_eq_take_drop]
  have h08 : (0:Nat) + 8 = 8 := by omega
  rw [h08]
  have harg : 8 + pl.length - 8 = pl.length := by omega
  rw [harg]
  rw [drop8_cons]
  rw [List.take_length]

theorem drop40_cons (b0 b1 b2 b3 b4 b5 b6 b7 : Nat) (src dst pb : List Nat)
    (hsrc : src.length = 16) (hdst : dst.length = 16) :
    List.drop (0+40) (b0::b1::b2::b3::b4::b5::b6::b7::(src ++ (dst ++ pb))) = pb := by
  have e1 : List.drop 8 (b0::b1::b2::b3::b4::b5::b6::b7::(src ++ (dst ++ pb))) =
      src ++ (dst ++ pb) := rfl
  have e2 : List.drop (0+40) (b0::b1::b2::b3::b4::b5::b6::b7::(src ++ (dst ++ pb))) =
      List.drop 32 (List.drop 8 (b0::b1::b2::b3::b4::b5::b6::b7::(src ++ (dst ++ pb)))) := by
    rw [List.drop_drop]
  rw [e2, e1]
  have e3 : List.drop 32 (src ++ (dst ++ pb)) =
      List.drop 16 (List.drop 16 (src ++ (dst ++ pb))) := by
    rw [List.drop_drop]
  rw [e3, List.drop_left' hsrc, List.drop_left' hdst]

theorem readAddress_first (b0 b1 b2 b3 b4 b5 b6 b7 : Nat) (src dst pb : List Nat)
    (hsrc : src.length = 16) :
    readAddress (b0::b1::b2::b3::b4::b5::b6::b7::(src ++ (dst ++ pb))) (0+8) =
      .ok src := by
  unfold readAddress
  rw [pySlice_eq_take_drop]
  have e0 : (0:Nat) + 8 + 16 - (0 + 8) = 16 := by omega
  rw [e0]
  have e1 : List.drop (0+8) (b0::b1::b2::b3::b4::b5::b6::b7::(src ++ (dst ++ pb))) =
      src ++ (dst ++ pb) := rfl
  rw [e1, List.take_left' hsrc]
  rw [if_pos hsrc]

theorem readAddress_second (b0 b1 b2 b3 b4 b5 b6 b7 : Nat) (src dst pb : List Nat)
    (hsrc : src.length = 16) (hdst : dst.length = 16) :
    readAddress (b0::b1::b2::b3::b4::b5::b6::b7::(src ++ (dst ++ pb))) (0+24) =
      .ok dst := by
  unfold readAddress
  rw [pySlice_eq_take_drop]
  have e0 : (0:Nat) + 24 + 16 - (0 + 24) = 16 := by omega
  rw [e0]
  have e2 : List.drop (0+24) (b0::b1::b2::b3::b4::b5::b6::b7::(src ++ (dst ++ pb))) =
      List.drop 16 (List.drop 8 (b0::b1::b2::b3::b4::b5::b6::b7::(src ++ (dst ++ pb)))) := by
    rw [List.drop_drop]
  have e1 : List.drop 8 (b0::b1::b2::b3::b4::b5::b6::b7::(src ++ (dst ++ pb))) =
      src ++ (dst ++ pb) := rfl
  rw [e2, e1, List.drop_left' hsrc, List.take_left' hdst]
  rw [if_pos hdst]

theorem IPv6_load_from_exact_udp (b0 b1 b2 b3 L1 L2 hop : Nat)
    (src dst pb : List Nat) (u : UDP) (len : Option Nat)
    (hver : b0 / 16 = 6)
    (hsrc : src.length = 16) (hdst : dst.length = 16)
    (hL : L1 * 256 + L2 = pb.length)
    (heff : effLength (b0::b1::b2::b3::L1::L2::17::hop::(src ++ (dst ++ pb))) 0 len =
      40 + pb.length)
    (hsub : UDP.load_from pb 0 (some pb.length) = .ok (pb.length, u)) :
    IPv6.load_from (b0::b1::b2::b3::L1::L2::17::hop::(src ++ (dst ++ pb))) 0 len =
      .ok (40 + pb.length,
        { traffic_class := (b0 * 256 + b1) / 16 % 256,
          flow_label := (b0 * 16777216 + b1 * 65536 + b2 * 256 + b3) % 1048576,
          next_header := 17, hop_limit := hop,
          source := src, destination := dst, payload := .udp u }) := by
  unfold IPv6.load_from
  rw [heff]
  simp only []
  rw [if_neg (by omega)]
  rw [getElem?_at0]
  simp only []
  rw [if_neg (show ¬(b0 / 16 ≠ 6) by omega)]
  rw [unpackH_at0, unpackI_at0, unpackH_at4, getElem?_at6, getElem?_at7]
  simp only []
  rw [readAddress_first b0 b1 b2 b3 L1 L2 17 hop src dst pb hsrc,
      readAddress_second b0 b1 b2 b3 L1 L2 17 hop src dst pb hsrc hdst]
  simp only []
  rw [hL]
  rw [if_neg (by omega)]
  rw [if_true]
  rw [UDP_load_from_drop _ (0+40) (some pb.length)]
  rw [drop40_cons b0 b1 b2 b3 L1 L2 17 hop src dst pb hsrc hdst]
  rw [hsub]
  simp only [Except.map]

theorem IPv6_load_from_exact_unknown (b0 b1 b2 b3 L1 L2 nh hop : Nat)
    (src dst pb : List Nat) (len : Option Nat)
    (hver : b0 / 16 = 6) (hnh : nh ≠ 17)
    (hsrc : src.length = 16) (hdst : dst.length = 16)
    (hL : L1 * 256 + L2 = pb.length)
    (heff : effLength (b0::b1::b2::b3::L1::L2::nh::hop::(src ++ (dst ++ pb))) 0 len =
      40 + pb.length) :
    IPv6.load_from (b0::b1::b2::b3::L1::L2::nh::hop::(src ++ (dst ++ pb))) 0 len =
      .ok (40 + pb.length,
        { traffic_class := (b0 * 256 + b1) / 16 % 256,
          flow_label := (b0 * 16777216 + b1 * 65536 + b2 * 256 + b3) % 1048576,
          next_header := nh, hop_limit := hop,
          source := src, destination := dst, payload := .unknownLayer4 pb }) := by
  unfold IPv6.load_from
  rw [heff]
  simp only []
  rw [if_neg (by omega)]
  rw [getElem?_at0]
  simp only []
  rw [if_neg (show ¬(b0 / 16 ≠ 6) by omega)]
  rw [unpackH_at0, unpackI_at0, unpackH_at4, getElem?_at6, getElem?_at7]
  simp only []
  rw [readAddress_first b0 b1 b2 b3 L1 L2 nh hop src dst pb hsrc,
      readAddress_second b0 b1 b2 b3 L1 L2 nh hop src dst pb hsrc hdst]
  simp only []
  rw [hL]
  rw [if_neg (by omega)]
  rw [if_neg hnh]
  rw [UnknownPE_load_from_drop _ (0+40) (some pb.length)]
  rw [drop40_cons b0 b1 b2 b3 L1 L2 nh hop src dst pb hsrc hdst]
  rw [UnknownPE_load_from_exact pb (some pb.length) (effLength_self pb)]
  simp only [Except.map]

theorem ethernet_buf_drop6 (dst src rest : List Nat) (hd : dst.length = 6) :
    List.drop (0+6) (dst ++ (src ++ rest)) = src ++ rest := by
  have h : (0:Nat) + 6 = dst.length := by omega
  rw [h, List.drop_left]

theorem ethernet_buf_drop12 (dst src rest : List Nat)
    (hd : dst.length = 6) (hs : src.length = 6) :
    List.drop (0+12) (dst ++ (src ++ rest)) = rest := by
  have e : List.drop 6 (List.drop (0+6) (dst ++ (src ++ rest))) =
      List.drop (0+6+6) (dst ++ (src ++ rest)) := by
    rw [List.drop_drop]
  have h12 : (0:Nat)+12 = 0+6+6 := by omega
  rw [h12, ← e, ethernet_buf_drop6 dst src rest hd, List.drop_left' hs]

theorem ethernet_slice_dst (dst src rest : List Nat) (hd : dst.length = 6) :
    pySlice (dst ++ (src ++ rest)) 0 (0+6) = dst := by
  rw [pySlice_eq_take_drop, List.drop_zero]
  have h : (0:Nat) + 6 - 0 = 6 := by omega
  rw [h, List.take_left' hd]

theorem ethernet_slice_src (dst src rest : List Nat)
    (hd : dst.length = 6) (hs : src.length = 6) :
    pySlice (dst ++ (src ++ rest)) (0+6) (0+12) = src := by
  rw [pySlice_eq_take_drop]
  have h : (0:Nat) + 12 - (0+6) = 6 := by omega
  rw [h, ethernet_buf_drop6 dst src rest hd, List.take_left' hs]

theorem ethernet_slice_ethertype (dst src : List Nat) (e1 e2 : Nat) (pb : List Nat)
    (hd : dst.length = 6) (hs : src.length = 6) :
    pySlice (dst ++ (src ++ (e1 :: e2 :: pb))) (0+12) (0+14) = [e1, e2] := by
  rw [pySlice_eq_take_drop]
  have h : (0:Nat) + 14 - (0+12) = 2 := by omega
  rw [h, ethernet_buf_drop12 dst src (e1 :: e2 :: pb) hd hs]
  rfl

theorem ethernet_buf_drop14 (dst src : List Nat) (e1 e2 : Nat) (pb : List Nat)
    (hd : dst.length = 6) (hs : src.length = 6) :
    List.drop (0+14) (dst ++ (src ++ (e1 :: e2 :: pb))) = pb := by
  have e : List.drop 2 (List.drop (0+12) (dst ++ (src ++ (e1 :: e2 :: pb)))) =
      List.drop (0+12+2) (dst ++ (src ++ (e1 :: e2 :: pb))) := by
    rw [List.drop_drop]
  have h14 : (0:Nat)+14 = 0+12+2 := by omega
  rw [h14, ← e, ethernet_buf_drop12 dst src (e1 :: e2 :: pb) hd hs]
  rfl

theorem Ethernet_load_from_exact_ipv6 (dst src : List Nat) (e1 e2 : Nat)
    (pb : List Nat) (p : IPv6) (len : Option Nat)
    (hd : dst.length = 6) (hs : src.length = 6)
    (het : e1 * 256 + e2 = 34525)
    (heff : effLength (dst ++ (src ++ (e1 :: e2 :: pb))) 0 len = 14 + pb.length)
    (hsub : IPv6.load_from pb 0 (some pb.length) = .ok (pb.length, p)) :
    Ethernet.load_from (dst ++ (src ++ (e1 :: e2 :: pb))) 0 len =
      .ok (14 + pb.length,
        { destination := dst, source := src, ethertype := 34525,
          payload := .ipv6 p }) := by
  unfold Ethernet.load_from
  rw [heff]
  simp only []
  rw [if_neg (by omega)]
  rw [ethernet_slice_ethertype dst src e1 e2 pb hd hs]
  rw [unpackH_at0]
  simp only []
  rw [het]
  rw [if_pos rfl]
  have harg : 14 + pb.length - 14 = pb.length := by omega
  rw [harg]
  rw [IPv6_load_from_drop _ (0+14) (some pb.length)]
  rw [ethernet_buf_drop14 dst src e1 e2 pb hd hs]
  rw [hsub]
  simp only [Except.map]
  rw [ethernet_slice_dst dst src (e1 :: e2 :: pb) hd]
  rw [ethernet_slice_src dst src (e1 :: e2 :: pb) hd hs]

theorem Ethernet_load_from_exact_unknown (dst src : List Nat) (e1 e2 : Nat)
    (pb : List Nat) (len : Option Nat)
    (hd : dst.length = 6) (hs : src.length = 6)
    (het : e1 * 256 + e2 ≠ 34525)
    (heff : effLength (dst ++ (src ++ (e1 :: e2 :: pb))) 0 len = 14 + pb.length) :
    Ethernet.load_from (dst ++ (src ++ (e1 :: e2 :: pb))) 0 len =
      .ok (14 + pb.length,
        { destination := dst, source := src, ethertype := e1 * 256 + e2,
          payload := .unknownLayer3 pb }) := by
  unfold Ethernet.load_from
  rw [heff]
  simp only []
  rw [if_neg (by omega)]
  rw [ethernet_slice_ethertype dst src e1 e2 pb hd hs]
  rw [unpackH_at0]
  simp only []
  rw [if_neg het]
  have harg : 14 + pb.length - 14 = pb.length := by omega
  rw [harg]
  rw [UnknownPE_load_from_drop _ (0+14) (some pb.length)]
  rw [ethernet_buf_drop14 dst src e1 e2 pb hd hs]
  rw [UnknownPE_load_from_exact pb (some pb.length) (effLength_self pb)]
  simp only [Except.map]
  rw [ethernet_slice_dst dst src (e1 :: e2 :: pb) hd]
  rw [ethernet_slice_src dst src (e1 :: e2 :: pb) hd hs]

theorem checksum_loop_lt : ∀ (msg : List Nat) (acc v : Nat),
    checksum_loop msg acc = some v → v < 65536
  | [], acc, v => by
      intro h
      simp [checksum_loop] at h
      omega
  | [a], acc, v => by
      intro h
      simp [checksum_loop] at h
  | a :: b :: rest, acc, v => by
      intro h
      rw [checksum_loop] at h
      exact checksum_loop_lt rest _ v h

theorem calculate_checksum_lt (u : UDP) (p : IPv6) :
    u.calculate_checksum p < 65536 := by
  unfold UDP.calculate_checksum
  simp only []
  set m2 := if (p.get_pseudo_header (.udp u) ++ u.save_zero).length % 2 = 1 then
      (p.get_pseudo_header (.udp u) ++ u.save_zero) ++ [0]
    else p.get_pseudo_header (.udp u) ++ u.save_zero with hm2
  cases h : ones_complement_checksum m2 with
  | none => simp
  | some v =>
      simp only [Option.getD_some]
      exact checksum_loop_lt m2 0 v h

theorem UDP_save_false_fst (u : UDP) (r : Option IPv6) :
    (u.save false r).1 =
      pack16 u.source_port ++ pack16 u.destination_port ++
        pack16 (u.payload.length + 8) ++ pack16 ((u.save false r).2.checksum) ++
        u.payload := by
  cases r <;> simp [UDP.save, UDP.length]

theorem UDP_save_false_snd_none (u : UDP) : (u.save false none).2 = u := by
  simp [UDP.save]

theorem UDP_save_false_snd_some (u : UDP) (p : IPv6) :
    (u.save false (some p)).2 = { u with checksum := u.calculate_checksum p } := by
  simp [UDP.save]

theorem UDP_save_false_length (u : UDP) (r : Option IPv6) :
    (u.save false r).1.length = u.payload.length + 8 := by
  rw [UDP_save_false_fst]
  simp [pack16]

theorem UDP_parse_bytes (sp dp ck : Nat) (pl : List Nat) (len : Option Nat)
    (hsp : sp < 65536) (hdp : dp < 65536) (hck : ck < 65536)
    (hpl : pl.length + 8 < 65536)
    (heff : effLength (pack16 sp ++ pack16 dp ++ pack16 (pl.length + 8) ++
        pack16 ck ++ pl) 0 len = pl.length + 8) :
    UDP.load_from (pack16 sp ++ pack16 dp ++ pack16 (pl.length + 8) ++
        pack16 ck ++ pl) 0 len =
      .ok (8 + pl.length,
        { source_port := sp, destination_port := dp, checksum := ck,
          payload := pl }) := by
  have hb : pack16 sp ++ pack16 dp ++ pack16 (pl.length + 8) ++ pack16 ck ++ pl =
      sp / 256 % 256 :: sp % 256 :: dp / 256 % 256 :: dp % 256 ::
      (pl.length + 8) / 256 % 256 :: (pl.length + 8) % 256 ::
      ck / 256 % 256 :: ck % 256 :: pl := by
    simp [pack16]
  rw [hb] at heff ⊢
  rw [UDP_load_from_exact _ _ _ _ _ _ _ _ pl len (by omega) heff]
  have h1 : sp / 256 % 256 * 256 + sp % 256 = sp := by omega
  have h2 : dp / 256 % 256 * 256 + dp % 256 = dp := by omega
  have h3 : ck / 256 % 256 * 256 + ck % 256 = ck := by omega
  rw [h1, h2, h3]

theorem UDP_parse_of_save (u : UDP) (r : Option IPv6) (len : Option Nat)
    (hsp : u.source_port < 65536) (hdp : u.destination_port < 65536)
    (hck : (u.save false r).2.checksum < 65536)
    (hpl : u.payload.length + 8 < 65536)
    (heff : effLength (u.save false r).1 0 len = u.payload.length + 8) :
    UDP.load_from (u.save false r).1 0 len =
      .ok (8 + u.payload.length,
        { source_port := u.source_port, destination_port := u.destination_port,
          checksum := (u.save false r).2.checksum, payload := u.payload }) := by
  rw [UDP_save_false_fst] at heff ⊢
  exact UDP_parse_bytes _ _ _ _ len hsp hdp hck hpl heff

theorem IPv6_save_fst (p : IPv6) :
    p.save.1 =
      (96 + p.traffic_class / 16) ::
      ((p.traffic_class % 16) * 16 + p.flow_label / 65536) ::
      (p.flow_label / 256 % 256) ::
      (p.flow_label % 256) ::
      ((p.payload.save false (some p)).1.length / 256 % 256) ::
      ((p.payload.save false (some p)).1.length % 256) ::
      (p.next_header % 256) ::
      (p.hop_limit % 256) ::
      (p.source ++ (p.destination ++ (p.payload.save false (some p)).1)) := by
  simp [IPv6.save, pack16]

theorem L4_save_udp (u : UDP) (z : Bool) (r : Option IPv6) :
    ((L4.udp u).save z r).1 = (u.save z r).1 := by
  simp [L4.save]

theorem L4_save_unknown (d : List Nat) (z : Bool) (r : Option IPv6) :
    ((L4.unknownLayer4 d).save z r).1 = d := by
  simp [L4.save]

theorem IPv6_parse_save (p : IPv6) (len : Option Nat) (hwf : p.wf)
    (heff : effLength p.save.1 0 len = p.save.1.length) :
    IPv6.load_from p.save.1 0 len = .ok (p.save.1.length, p) := by
  obtain ⟨htc, hfl, hnh, hhop, hsrc, hdst, hcons⟩ := hwf
  cases hp : p.payload with
  | udp u =>
    rw [hp] at hcons
    simp only [L4.consistentWith] at hcons
    obtain ⟨hnh17, hufw, huck⟩ := hcons
    obtain ⟨husp, hudp, huck16, hupl⟩ := hufw
    have hpb : (p.payload.save false (some p)).1 = (u.save false (some p)).1 := by
      rw [hp, L4_save_udp]
    have hpblen : (p.payload.save false (some p)).1.length = u.payload.length + 8 := by
      rw [hpb, UDP_save_false_length]
    have hbytes2 : p.save.1 =
        (96 + p.traffic_class / 16) ::
        ((p.traffic_class % 16) * 16 + p.flow_label / 65536) ::
        (p.flow_label / 256 % 256) ::
        (p.flow_label % 256) ::
        ((u.save false (some p)).1.length / 256 % 256) ::
        ((u.save false (some p)).1.length % 256) ::
        (17 : Nat) ::
        (p.hop_limit % 256) ::
        (p.source ++ (p.destination ++ (u.save false (some p)).1)) := by
      rw [IPv6_save_fst p, hpb]
      rw [show p.next_header % 256 = 17 by omega]
    have hsub : UDP.load_from (u.save false (some p)).1 0
        (some (u.save false (some p)).1.length) =
        .ok ((u.save false (some p)).1.length, u) := by
      have hck : (u.save false (some p)).2.checksum < 65536 := by
        rw [UDP_save_false_snd_some]
        exact calculate_checksum_lt u p
      have he : effLength (u.save false (some p)).1 0
          (some (u.save false (some p)).1.length) = u.payload.length + 8 := by
        rw [effLength_self, UDP_save_false_length]
      rw [UDP_parse_of_save u (some p) _ husp hudp hck hupl he]
      rw [UDP_save_false_length]
      rw [UDP_save_false_snd_some]
      have h8 : 8 + u.payload.length = u.payload.length + 8 := by omega
      rw [h8]
      rw [← huck]
    have heff3 : effLength p.save.1 0 len = 40 + (u.save false (some p)).1.length := by
      rw [heff, hbytes2]
      simp [hsrc, hdst, UDP_save_false_length]
      omega
    rw [hbytes2] at heff3
    rw [hbytes2]
    rw [IPv6_load_from_exact_udp _ _ _ _ _ _ _ p.source p.destination
        (u.save false (some p)).1 u len (by omega) hsrc hdst
        (by rw [UDP_save_false_length]; omega) heff3
        (by rw [UDP_save_false_length] at hsub ⊢; exact hsub)]
    simp only [Except.ok.injEq, Prod.mk.injEq]
    constructor
    · simp [hsrc, hdst, UDP_save_false_length]
      omega
    · have e1 : ((96 + p.traffic_class / 16) * 256 +
          ((p.traffic_class % 16) * 16 + p.flow_label / 65536)) / 16 % 256 =
          p.traffic_class := by omega
      have e2 : ((96 + p.traffic_class / 16) * 16777216 +
          ((p.traffic_class % 16) * 16 + p.flow_label / 65536) * 65536 +
          (p.flow_label / 256 % 256) * 256 + p.flow_label % 256) % 1048576 =
          p.flow_label := by omega
      have e4 : p.hop_limit % 256 = p.hop_limit := by omega
      rw [e1, e2, e4, ← hnh17, ← hp]
  | unknownLayer4 d =>
    rw [hp] at hcons
    simp only [L4.consistentWith] at hcons
    obtain ⟨hnh17, hdlen⟩ := hcons
    have hpb : (p.payload.save false (some p)).1 = d := by
      rw [hp, L4_save_unknown]
    have hbytes2 : p.save.1 =
        (96 + p.traffic_class / 16) ::
        ((p.traffic_class % 16) * 16 + p.flow_label / 65536) ::
        (p.flow_label / 256 % 256) ::
        (p.flow_label % 256) ::
        (d.length / 256 % 256) ::
        (d.length % 256) ::
        (p.next_header % 256) ::
        (p.hop_limit % 256) ::
        (p.source ++ (p.destination ++ d)) := by
      rw [IPv6_save_fst p, hpb]
    have heff3 : effLength p.save.1 0 len = 40 + d.length := by
      rw [heff, hbytes2]
      simp [hsrc, hdst]
      omega
    rw [hbytes2] at heff3
    rw [hbytes2]
    rw [IPv6_load_from_exact_unknown _ _ _ _ _ _ _ _ p.source p.destination d len
        (by omega) (by omega) hsrc hdst (by omega) heff3]
    simp only [Except.ok.injEq, Prod.mk.injEq]
    constructor
    · simp [hsrc, hdst]
      omega
    · have e1 : ((96 + p.traffic_class / 16) * 256 +
          ((p.traffic_class % 16) * 16 + p.flow_label / 65536)) / 16 % 256 =
          p.traffic_class := by omega
      have e2 : ((96 + p.traffic_class / 16) * 16777216 +
          ((p.traffic_class % 16) * 16 + p.flow_label / 65536) * 65536 +
          (p.flow_label / 256 % 256) * 256 + p.flow_label % 256) % 1048576 =
          p.flow_label := by omega
      have e3 : p.next_header % 256 = p.next_header := by omega
      have e4 : p.hop_limit % 256 = p.hop_limit := by omega
      rw [e1, e2, e3, e4, ← hp]

theorem Ethernet_parse_save (f : Ethernet) (len : Option Nat) (hwf : f.wf)
    (heff : effLength f.save.1 0 len = f.save.1.length) :
    Ethernet.load_from f.save.1 0 len = .ok (f.save.1.length, f) := by
  obtain ⟨hd, hs, het16, hcons⟩ := hwf
  cases hp : f.payload with
  | ipv6 p =>
    rw [hp] at hcons
    simp only [L3.consistentWith] at hcons
    obtain ⟨het, hpwf⟩ := hcons
    have hbytes : f.save.1 =
        f.destination ++ (f.source ++
          ((f.ethertype / 256 % 256) :: (f.ethertype % 256) :: p.save.1)) := by
      simp [Ethernet.save, pack16, hp, L3.save]
    rw [hbytes] at heff ⊢
    have heff3 : effLength (f.destination ++ (f.source ++
        ((f.ethertype / 256 % 256) :: (f.ethertype % 256) :: p.save.1))) 0 len =
        14 + p.save.1.length := by
      rw [heff]
      simp [hd, hs]
      omega
    rw [Ethernet_load_from_exact_ipv6 f.destination f.source _ _ p.save.1 p len
        hd hs (by omega) heff3
        (IPv6_parse_save p (some p.save.1.length) hpwf (effLength_self _))]
    simp only [Except.ok.injEq, Prod.mk.injEq]
    constructor
    · simp [hd, hs]
      omega
    · rw [← het, ← hp]
  | unknownLayer3 d =>
    rw [hp] at hcons
    simp only [L3.consistentWith] at hcons
    have hbytes : f.save.1 =
        f.destination ++ (f.source ++
          ((f.ethertype / 256 % 256) :: (f.ethertype % 256) :: d)) := by
      simp [Ethernet.save, pack16, hp, L3.save]
    rw [hbytes] at heff ⊢
    have heff3 : effLength (f.destination ++ (f.source ++
        ((f.ethertype / 256 % 256) :: (f.ethertype % 256) :: d))) 0 len =
        14 + d.length := by
      rw [heff]
      simp [hd, hs]
      omega
    rw [Ethernet_load_from_exact_unknown f.destination f.source _ _ d len
        hd hs (by omega) heff3]
    simp only [Except.ok.injEq, Prod.mk.injEq]
    constructor
    · simp [hd, hs]
      omega
    · have e1 : f.ethertype / 256 % 256 * 256 + f.ethertype % 256 = f.ethertype := by
        omega
      rw [e1, ← hp]

/-- C1 (amended): round-tripping holds for every structurally valid value
whose wire discriminants agree with its payload variant (ethertype 0x86DD
exactly for an IPv6 payload, next-header 17 exactly for a UDP payload),
whose payload length fits the 16-bit length field, and whose stored UDP
checksum equals the value serialization recomputes: for such values of the
UDP, IPv6 and Ethernet types, parsing the serialized bytes consumes the
whole buffer and returns the value unchanged. -/
theorem roundtrip_parse_save :
    (∀ u : UDP, u.wf →
      UDP.load_from (u.save false none).1 0 none =
        .ok ((u.save false none).1.length, u)) ∧
    (∀ p : IPv6, p.wf →
      IPv6.load_from p.save.1 0 none = .ok (p.save.1.length, p)) ∧
    (∀ f : Ethernet, f.wf →
      Ethernet.load_from f.save.1 0 none = .ok (f.save.1.length, f)) := by
  refine ⟨?_, fun p hwf => IPv6_parse_save p none hwf (effLength_none _),
          fun f hwf => Ethernet_parse_save f none hwf (effLength_none _)⟩
  intro u hwf
  obtain ⟨hsp, hdp, hck, hpl⟩ := hwf
  have hck2 : (u.save false none).2.checksum < 65536 := by
    rw [UDP_save_false_snd_none]
    exact hck
  have he : effLength (u.save false none).1 0 none = u.payload.length + 8 := by
    rw [effLength_none, UDP_save_false_length]
  rw [UDP_parse_of_save u none none hsp hdp hck2 hpl he]
  rw [UDP_save_false_snd_none, UDP_save_false_length]
  have h8 : 8 + u.payload.length = u.payload.length + 8 := by omega
  rw [h8]

/-- C1 (witness): the amended round-trip applied to the full-chain fixture
frame, whose stored checksum matches the recomputed one. -/
theorem roundtrip_parse_save_witness :
    Ethernet.load_from fixture_frame.save.1 0 none =
      .ok (fixture_frame.save.1.length, fixture_frame) :=
  roundtrip_parse_save.2.2 fixture_frame
    ⟨by decide, by decide, by decide,
     ⟨by decide,
      ⟨by decide, by decide, by decide, by decide, by decide, by decide,
       ⟨by decide, ⟨by decide, by decide, by decide, by decide⟩, by decide⟩⟩⟩⟩

theorem pySlice_length (l : List Nat) (a b : Nat) :
    (pySlice l a b).length = min b l.length - a := by
  simp [pySlice]

theorem readAddress_isOk (l : List Nat) (s : Nat) (h : s + 16 ≤ l.length) :
    ∃ a, readAddress l s = .ok a := by
  unfold readAddress
  rw [if_pos (by rw [pySlice_length]; omega)]
  exact ⟨_, rfl⟩

/-- C6: parsing fewer than 14 / 40 / 8 bytes for Ethernet / IPv6 / UDP fails
with the TooShort error; a region of exactly the minimum length with a
consistent declared length succeeds (shown on the minimal fixtures of the
test suite); and UDP parsing fails with the same error class whenever the
declared 16-bit total length field is below 8. -/
theorem minimum_length_enforcement :
    (∀ buffer : List Nat, buffer.length < 14 →
      Ethernet.load_from buffer 0 none = .error .tooShort) ∧
    (∀ buffer : List Nat, buffer.length < 40 →
      IPv6.load_from buffer 0 none = .error .tooShort) ∧
    (∀ buffer : List Nat, buffer.length < 8 →
      UDP.load_from buffer 0 none = .error .tooShort) ∧
    (Ethernet.load_from (List.replicate 14 0) 0 none =
      .ok (14, { destination := [0,0,0,0,0,0], source := [0,0,0,0,0,0],
                 ethertype := 0, payload := .unknownLayer3 [] })) ∧
    (IPv6.load_from (0x60 :: List.replicate 39 0) 0 none =
      .ok (40, { traffic_class := 0, flow_label := 0, next_header := 0,
                 hop_limit := 0, source := List.replicate 16 0,
                 destination := List.replicate 16 0,
                 payload := .unknownLayer4 [] })) ∧
    (UDP.load_from [0, 1, 0, 2, 0, 8, 0, 0] 0 none =
      .ok (8, { source_port := 1, destination_port := 2, checksum := 0,
                payload := [] })) ∧
    (∀ (b1 b2 b3 b4 b5 b6 b7 b8 : Nat) (rest : List Nat),
      b5 * 256 + b6 < 8 →
      UDP.load_from (b1::b2::b3::b4::b5::b6::b7::b8::rest) 0 none =
        .error .tooShort) := by
  refine ⟨?_, ?_, ?_, by decide, by decide, by decide, ?_⟩
  · intro buffer h
    unfold Ethernet.load_from
    rw [effLength_none]
    simp only []
    rw [if_pos (by omega)]
  · intro buffer h
    unfold IPv6.load_from
    rw [effLength_none]
    simp only []
    rw [if_pos (by omega)]
  · intro buffer h
    unfold UDP.load_from
    rw [effLength_none]
    simp only []
    rw [if_pos (by omega)]
  · intro b1 b2 b3 b4 b5 b6 b7 b8 rest h
    unfold UDP.load_from
    rw [effLength_none]
    simp only []
    rw [if_neg (by simp)]
    rw [unpackH_at0, unpackH_at2, unpackH_at4, unpackH_at6]
    simp only []
    rw [if_pos h]

/-- C6 (witness): the minimum-length rules applied at the concrete inputs
of the test suite. -/
theorem minimum_length_enforcement_witness :
    Ethernet.load_from [0, 0, 0] 0 none = .error .tooShort ∧
    IPv6.load_from [0x60] 0 none = .error .tooShort ∧
    UDP.load_from [0, 1] 0 none = .error .tooShort ∧
    UDP.load_from [0, 1, 0, 2, 0, 7, 0, 0] 0 none = .error .tooShort :=
  ⟨minimum_length_enforcement.1 [0, 0, 0] (by decide),
   minimum_length_enforcement.2.1 [0x60] (by decide),
   minimum_length_enforcement.2.2.1 [0, 1] (by decide),
   minimum_length_enforcement.2.2.2.2.2.2 0 1 0 2 0 7 0 0 [] (by decide)⟩

/-- C7: for IPv6 and UDP, a declared payload / total length strictly
exceeding the remaining buffer fails with the Overrun error, while a
declared length exactly equal to the remaining buffer succeeds. -/
theorem overrun_exact_fit_boundary :
    (∀ (b0 b1 b2 b3 L1 L2 nh hop : Nat) (rest : List Nat),
      32 ≤ rest.length → b0 / 16 = 6 → rest.length - 32 < L1 * 256 + L2 →
      IPv6.load_from (b0::b1::b2::b3::L1::L2::nh::hop::rest) 0 none =
        .error .overrun) ∧
    (∀ (b0 b1 b2 b3 L1 L2 nh hop : Nat) (rest : List Nat),
      32 ≤ rest.length → b0 / 16 = 6 → nh ≠ 17 →
      L1 * 256 + L2 = rest.length - 32 →
      ∃ p, IPv6.load_from (b0::b1::b2::b3::L1::L2::nh::hop::rest) 0 none =
        .ok (8 + rest.length, p)) ∧
    (∀ (b1 b2 b3 b4 b5 b6 b7 b8 : Nat) (rest : List Nat),
      8 ≤ b5 * 256 + b6 → rest.length + 8 < b5 * 256 + b6 →
      UDP.load_from (b1::b2::b3::b4::b5::b6::b7::b8::rest) 0 none =
        .error .overrun) ∧
    (∀ (b1 b2 b3 b4 b5 b6 b7 b8 : Nat) (rest : List Nat),
      b5 * 256 + b6 = rest.length + 8 →
      ∃ u, UDP.load_from (b1::b2::b3::b4::b5::b6::b7::b8::rest) 0 none =
        .ok (8 + rest.length, u)) := by
  refine ⟨?_, ?_, ?_, ?_⟩
  · intro b0 b1 b2 b3 L1 L2 nh hop rest h32 hver hover
    unfold IPv6.load_from
    rw [effLength_none]
    simp only []
    rw [if_neg (by simp; omega)]
    rw [getElem?_at0]
    simp only []
    rw [if_neg (show ¬(b0 / 16 ≠ 6) by omega)]
    rw [unpackH_at0, unpackI_at0, unpackH_at4, getElem?_at6, getElem?_at7]
    simp only []
    obtain ⟨a1, ha1⟩ := readAddress_isOk (b0::b1::b2::b3::L1::L2::nh::hop::rest)
      (0+8) (by simp; omega)
    obtain ⟨a2, ha2⟩ := readAddress_isOk (b0::b1::b2::b3::L1::L2::nh::hop::rest)
      (0+24) (by simp; omega)
    rw [ha1, ha2]
    simp only []
    rw [if_pos (by simp; omega)]
  · intro b0 b1 b2 b3 L1 L2 nh hop rest h32 hver hnh hfit
    have hsplit : rest = List.take 16 rest ++
        ((rest.drop 16).take 16 ++ List.drop 32 rest) := by
      conv_lhs => rw [← List.take_append_drop 16 rest]
      congr 1
      conv_lhs => rw [← List.take_append_drop 16 (rest.drop 16)]
      congr 1
      rw [List.drop_drop]
    have hb : (b0::b1::b2::b3::L1::L2::nh::hop::rest) =
        b0::b1::b2::b3::L1::L2::nh::hop::(List.take 16 rest ++
          ((rest.drop 16).take 16 ++ List.drop 32 rest)) := by
      rw [← hsplit]
    refine ⟨{ traffic_class := (b0 * 256 + b1) / 16 % 256,
              flow_label := (b0 * 16777216 + b1 * 65536 + b2 * 256 + b3) % 1048576,
              next_header := nh, hop_limit := hop,
              source := List.take 16 rest,
              destination := (rest.drop 16).take 16,
              payload := .unknownLayer4 (List.drop 32 rest) }, ?_⟩
    rw [hb]
    rw [IPv6_load_from_exact_unknown b0 b1 b2 b3 L1 L2 nh hop (List.take 16 rest)
        ((rest.drop 16).take 16) (List.drop 32 rest) none hver hnh
        (by simp; omega) (by simp; omega) (by simp; omega)
        (by rw [effLength_none]; simp; omega)]
    simp only [Except.ok.injEq, Prod.mk.injEq]
    exact ⟨by simp; omega, trivial⟩
  · intro b1 b2 b3 b4 b5 b6 b7 b8 rest h8 hover
    unfold UDP.load_from
    rw [effLength_none]
    simp only []
    rw [if_neg (by simp)]
    rw [unpackH_at0, unpackH_at2, unpackH_at4, unpackH_at6]
    simp only []
    rw [if_neg (by omega)]
    rw [if_pos (by simp; omega)]
  · intro b1 b2 b3 b4 b5 b6 b7 b8 rest hfit
    refine ⟨{ source_port := b1 * 256 + b2, destination_port := b3 * 256 + b4,
              checksum := b7 * 256 + b8, payload := rest }, ?_⟩
    rw [UDP_load_from_exact b1 b2 b3 b4 b5 b6 b7 b8 rest none (by omega)
      (by rw [effLength_none]; simp)]

/-- C7 (witness): the overrun / exact-fit boundary applied at the concrete
inputs of the test suite: an IPv6 header declaring one payload byte over a
40-byte buffer fails, the same header over a 41-byte buffer succeeds, and a
UDP header declaring nine bytes over an 8-byte buffer fails while declaring
eight succeeds. -/
theorem overrun_exact_fit_boundary_witness :
    IPv6.load_from (0x60 :: List.replicate 4 0 ++ [1] ++ List.replicate 34 0) 0 none =
      .error .overrun ∧
    (∃ p, IPv6.load_from (0x60 :: List.replicate 4 0 ++ [1] ++ List.replicate 34 0 ++ [1])
      0 none = .ok (41, p)) ∧
    UDP.load_from [0, 1, 0, 2, 0, 9, 0, 0] 0 none = .error .overrun ∧
    (∃ u, UDP.load_from [0, 1, 0, 2, 0, 8, 0, 0] 0 none = .ok (8, u)) := by
  refine ⟨?_, ?_, ?_, ?_⟩
  · have h := overrun_exact_fit_boundary.1 0x60 0 0 0 0 1 0 0
      (List.replicate 32 0) (by decide) (by decide) (by decide)
    simpa using h
  · obtain ⟨p, hp⟩ := overrun_exact_fit_boundary.2.1 0x60 0 0 0 0 1 0 0
      (List.replicate 32 0 ++ [1]) (by decide) (by decide) (by decide) (by decide)
    refine ⟨p, ?_⟩
    have he : (0x60 :: List.replicate 4 0 ++ [1] ++ List.replicate 34 0 ++ [1] : List Nat) =
        0x60 :: 0 :: 0 :: 0 :: 0 :: 1 :: 0 :: 0 :: (List.replicate 32 0 ++ [1]) := by decide
    rw [he]
    simpa using hp
  · have h := overrun_exact_fit_boundary.2.2.1 0 1 0 2 0 9 0 0 ([] : List Nat)
      (by decide) (by decide)
    simpa using h
  · obtain ⟨u, hu⟩ := overrun_exact_fit_boundary.2.2.2 0 1 0 2 0 8 0 0 ([] : List Nat)
      (by decide)
    exact ⟨u, by simpa using hu⟩

theorem unpackH_isSome (l : List Nat) (i : Nat) (h : i + 1 < l.length) :
    ∃ v, unpackH l i = some v := by
  unfold unpackH
  rw [List.getElem?_eq_getElem (by omega), List.getElem?_eq_getElem h]
  exact ⟨_, rfl⟩

theorem unpackI_isSome (l : List Nat) (i : Nat) (h : i + 3 < l.length) :
    ∃ v, unpackI l i = some v := by
  unfold unpackI
  rw [List.getElem?_eq_getElem (by omega), List.getElem?_eq_getElem (by omega),
      List.getElem?_eq_getElem (by omega), List.getElem?_eq_getElem h]
  exact ⟨_, rfl⟩

theorem getElem?_isSome_of_lt (l : List Nat) (i : Nat) (h : i < l.length) :
    ∃ v, l[i]? = some v :=
  ⟨_, List.getElem?_eq_getElem h⟩

theorem effLength_some_le (l : List Nat) (m : Nat) (h : m ≤ l.length) :
    effLength l 0 (some m) ≤ l.length := by
  unfold effLength
  cases m with
  | zero => simp
  | succ k => exact h

theorem UDP_load_from_no_hardFault (l : List Nat) (len : Option Nat)
    (h : effLength l 0 len ≤ l.length) :
    UDP.load_from l 0 len ≠ .error .hardFault := by
  unfold UDP.load_from
  simp only []
  by_cases h8 : effLength l 0 len < 8
  · rw [if_pos h8]
    intro hc
    simp at hc
  · rw [if_neg h8]
    obtain ⟨v1, hv1⟩ := unpackH_isSome l 0 (by omega)
    obtain ⟨v2, hv2⟩ := unpackH_isSome l (0+2) (by omega)
    obtain ⟨v3, hv3⟩ := unpackH_isSome l (0+4) (by omega)
    obtain ⟨v4, hv4⟩ := unpackH_isSome l (0+6) (by omega)
    rw [hv1, hv2, hv3, hv4]
    simp only []
    by_cases hb1 : v3 < 8
    · rw [if_pos hb1]
      intro hc
      simp at hc
    · rw [if_neg hb1]
      by_cases hb2 : v3 - 8 > effLength l 0 len - 8
      · rw [if_pos hb2]
        intro hc
        simp at hc
      · rw [if_neg hb2]
        intro hc
        simp at hc

theorem IPv6_load_from_no_hardFault (l : List Nat) (len : Option Nat)
    (h : effLength l 0 len ≤ l.length) :
    IPv6.load_from l 0 len ≠ .error .hardFault := by
  unfold IPv6.load_from
  simp only []
  by_cases h40 : effLength l 0 len < 40
  · rw [if_pos h40]
    intro hc
    simp at hc
  · rw [if_neg h40]
    obtain ⟨b0, hb0⟩ := getElem?_isSome_of_lt l 0 (by omega)
    rw [hb0]
    simp only []
    by_cases hv : b0 / 16 ≠ 6
    · rw [if_pos hv]
      intro hc
      simp at hc
    · rw [if_neg hv]
      obtain ⟨v1, hv1⟩ := unpackH_isSome l 0 (by omega)
      obtain ⟨v2, hv2⟩ := unpackI_isSome l 0 (by omega)
      obtain ⟨v3, hv3⟩ := unpackH_isSome l (0+4) (by omega)
      obtain ⟨v4, hv4⟩ := getElem?_isSome_of_lt l (0+6) (by omega)
      obtain ⟨v5, hv5⟩ := getElem?_isSome_of_lt l (0+7) (by omega)
      rw [hv1, hv2, hv3, hv4, hv5]
      simp only []
      obtain ⟨a1, ha1⟩ := readAddress_isOk l (0+8) (by omega)
      obtain ⟨a2, ha2⟩ := readAddress_isOk l (0+24) (by omega)
      rw [ha1, ha2]
      simp only []
      by_cases hover : v3 > effLength l 0 len - 40
      · rw [if_pos hover]
        intro hc
        simp at hc
      · rw [if_neg hover]
        by_cases hnh : v4 = 17
        · rw [if_pos hnh]
          rw [UDP_load_from_drop l (0+40) (some v3)]
          have hsub : UDP.load_from (l.drop (0+40)) 0 (some v3) ≠
              .error .hardFault := by
            apply UDP_load_from_no_hardFault
            apply effLength_some_le
            simp
            omega
          cases hres : UDP.load_from (l.drop (0+40)) 0 (some v3) with
          | error e =>
            intro hc
            simp [Except.map] at hc
            exact hsub (by rw [hres, hc])
          | ok r =>
            intro hc
            simp [Except.map] at hc
        · rw [if_neg hnh]
          intro hc
          simp [Except.map] at hc

theorem Ethernet_load_from_no_hardFault (l : List Nat) (len : Option Nat)
    (h : effLength l 0 len ≤ l.length) :
    Ethernet.load_from l 0 len ≠ .error .hardFault := by
  unfold Ethernet.load_from
  simp only []
  by_cases h14 : effLength l 0 len < 14
  · rw [if_pos h14]
    intro hc
    simp at hc
  · rw [if_neg h14]
    obtain ⟨et, het⟩ := unpackH_isSome (pySlice l (0+12) (0+14)) 0
      (by rw [pySlice_length]; omega)
    rw [het]
    simp only []
    by_cases hdis : et = 34525
    · rw [if_pos hdis]
      rw [IPv6_load_from_drop l (0+14) (some (effLength l 0 len - 14))]
      have hsub : IPv6.load_from (l.drop (0+14)) 0
          (some (effLength l 0 len - 14)) ≠ .error .hardFault := by
        apply IPv6_load_from_no_hardFault
        apply effLength_some_le
        simp
        omega
      cases hres : IPv6.load_from (l.drop (0+14)) 0
          (some (effLength l 0 len - 14)) with
      | error e =>
        intro hc
        simp [Except.map] at hc
        exact hsub (by rw [hres, hc])
      | ok r =>
        intro hc
        simp [Except.map] at hc
    · rw [if_neg hdis]
      intro hc
      simp [Except.map] at hc

/-- C8: recv_request classifies every incoming channel datagram exactly as
prescribed: under 70 bytes raises the ignorable TooShort signal; otherwise a
nonzero envelope action raises UnknownAction; otherwise an interface index
with no matching descriptor raises UnknownInterface; otherwise a frame that
does not parse to Ethernet/IPv6/UDP with destination port equal to the DHCP
server port (any parse failure included) raises UnwantedMessage; otherwise a
destination-policy violation raises UnwantedMessage; and only when every
check passes does the call return the bundle and reply handle. -/
theorem recv_request_classification
    (interfaces : List VPPInterface) (marks : List String)
    (message_counter : Nat) (data : List Nat) :
    (data.length < 70 →
      recv_request interfaces marks message_counter data =
        .error .incompleteMessage) ∧
    (∀ if_index action, ¬ data.length < 70 →
      unpack_i32 data 0 = some if_index → unpack_i32 data 4 = some action →
      action ≠ 0 →
      recv_request interfaces marks message_counter data =
        .error .unknownVPPAction) ∧
    (∀ if_index, ¬ data.length < 70 →
      unpack_i32 data 0 = some if_index → unpack_i32 data 4 = some 0 →
      interfaces.find? (fun i => i.index == if_index) = none →
      recv_request interfaces marks message_counter data =
        .error .unknownVPPInterface) ∧
    (∀ if_index interface, ¬ data.length < 70 →
      unpack_i32 data 0 = some if_index → unpack_i32 data 4 = some 0 →
      interfaces.find? (fun i => i.index == if_index) = some interface →
      (∀ n frame, Ethernet.load_from data 8 none = .ok (n, frame) →
        ¬ ∃ p u, frame.payload = .ipv6 p ∧ p.payload = .udp u ∧
            u.destination_port = SERVER_PORT) →
      recv_request interfaces marks message_counter data =
        .error .unwantedVPPMessage) ∧
    (∀ if_index interface n frame p u, ¬ data.length < 70 →
      unpack_i32 data 0 = some if_index → unpack_i32 data 4 = some 0 →
      interfaces.find? (fun i => i.index == if_index) = some interface →
      Ethernet.load_from data 8 none = .ok (n, frame) →
      frame.payload = .ipv6 p → p.payload = .udp u →
      u.destination_port = SERVER_PORT →
      ((is_multicast p.destination = true ∧ interface.accept_multicast = false) ∨
       (is_multicast p.destination = false ∧ interface.accept_unicast = false)) →
      recv_request interfaces marks message_counter data =
        .error .unwantedVPPMessage) ∧
    (∀ if_index interface n frame p u, ¬ data.length < 70 →
      unpack_i32 data 0 = some if_index → unpack_i32 data 4 = some 0 →
      interfaces.find? (fun i => i.index == if_index) = some interface →
      Ethernet.load_from data 8 none = .ok (n, frame) →
      frame.payload = .ipv6 p → p.payload = .udp u →
      u.destination_port = SERVER_PORT →
      (is_multicast p.destination = true → interface.accept_multicast = true) →
      (is_multicast p.destination = false → interface.accept_unicast = true) →
      recv_request interfaces marks message_counter data =
        .ok ({ message_id := message_counter, data := u.payload,
               source_address := p.source,
               link_address := interface.link_address,
               interface_index := interface.index,
               received_over_multicast := is_multicast p.destination,
               marks := marks,
               relay_interface_id := interface.name,
               relay_link_layer_address := frame.source },
             { interface_index := interface.index,
               interface_mac_address := interface.mac_address,
               client_mac_address := frame.source,
               reply_from := interface.reply_from })) := by
  refine ⟨?_, ?_, ?_, ?_, ?_, ?_⟩
  · intro h
    unfold recv_request
    rw [if_pos h]
  · intro i a hlen h0 h4 hact
    unfold recv_request
    rw [if_neg hlen, h0, h4]
    simp only []
    rw [if_pos hact]
  · intro i hlen h0 h4 hfind
    unfold recv_request
    rw [if_neg hlen, h0, h4]
    simp only []
    rw [if_neg (show ¬(0:Int) ≠ 0 by simp), hfind]
  · intro i iface hlen h0 h4 hfind hshape
    unfold recv_request
    rw [if_neg hlen, h0, h4]
    simp only []
    rw [if_neg (show ¬(0:Int) ≠ 0 by simp), hfind]
    simp only []
    rw [Ethernet_load_from_drop data 8 none]
    cases hres : Ethernet.load_from (data.drop 8) 0 none with
    | error e =>
      have hne : ¬ e = PErr.hardFault := by
        intro he
        exact Ethernet_load_from_no_hardFault (data.drop 8) none
          (by rw [effLength_none]) (by rw [hres, he])
      simp only []
      rw [if_neg hne]
    | ok r =>
      have horig : Ethernet.load_from data 8 none = .ok (r.1, r.2) := by
        rw [Ethernet_load_from_drop data 8 none, hres]
      simp only []
      cases hpl : r.2.payload with
      | unknownLayer3 d => rfl
      | ipv6 p =>
        simp only []
        cases hpu : p.payload with
        | unknownLayer4 d => rfl
        | udp u =>
          simp only []
          rw [if_pos (show ¬ u.destination_port = SERVER_PORT from fun heq =>
            hshape r.1 r.2 horig ⟨p, u, hpl, hpu, heq⟩)]
  · intro i iface n frame p u hlen h0 h4 hfind hpar hpl hpu hport hpol
    unfold recv_request
    rw [if_neg hlen, h0, h4]
    simp only []
    rw [if_neg (show ¬(0:Int) ≠ 0 by simp), hfind]
    simp only []
    rw [Ethernet_load_from_drop data 8 none]
    have hres : Ethernet.load_from (data.drop 8) 0 none = .ok (n, frame) := by
      rw [← Ethernet_load_from_drop data 8 none]
      exact hpar
    rw [hres]
    simp only []
    rw [hpl]
    simp only []
    rw [hpu]
    simp only []
    rw [if_neg (show ¬ u.destination_port ≠ SERVER_PORT by simp [hport])]
    rcases hpol with ⟨hmc, hacc⟩ | ⟨hmc, hacc⟩
    · rw [if_pos (by simp [hmc, hacc])]
    · rw [if_neg (by simp [hmc]), if_pos (by simp [hmc, hacc])]
  · intro i iface n frame p u hlen h0 h4 hfind hpar hpl hpu hport hm hu
    unfold recv_request
    rw [if_neg hlen, h0, h4]
    simp only []
    rw [if_neg (show ¬(0:Int) ≠ 0 by simp), hfind]
    simp only []
    rw [Ethernet_load_from_drop data 8 none]
    have hres : Ethernet.load_from (data.drop 8) 0 none = .ok (n, frame) := by
      rw [← Ethernet_load_from_drop data 8 none]
      exact hpar
    rw [hres]
    simp only []
    rw [hpl]
    simp only []
    rw [hpu]
    simp only []
    rw [if_neg (show ¬ u.destination_port ≠ SERVER_PORT by simp [hport])]
    cases hmc : is_multicast p.destination with
    | true =>
      rw [if_neg (by simp [hmc, hm hmc]), if_neg (by simp [hmc])]
    | false =>
      rw [if_neg (by simp [hmc]), if_neg (by simp [hmc, hu hmc])]

/-- C8 (witness): the classification applied to a concrete well-formed
channel datagram on a known unicast-accepting interface yields the bundle
and reply handle. -/
theorem recv_request_classification_witness :
    recv_request [vpp_interface_fixture] [] 7 vpp_data_fixture =
      .ok ({ message_id := 7, data := demo_udp_payload,
             source_address := fixture_source_address,
             link_address := fixture_source_address,
             interface_index := 1,
             received_over_multicast := false,
             marks := [],
             relay_interface_id := "testif",
             relay_link_layer_address := [0xcd, 0xef, 0x01, 0x23, 0x45, 0x67] },
           { interface_index := 1,
             interface_mac_address := [0xcd, 0xef, 0x01, 0x23, 0x45, 0x67],
             client_mac_address := [0xcd, 0xef, 0x01, 0x23, 0x45, 0x67],
             reply_from := fixture_source_address }) :=
  (recv_request_classification [vpp_interface_fixture] [] 7
      vpp_data_fixture).2.2.2.2.2 1 vpp_interface_fixture 78 vpp_frame_fixture
    vpp_ipv6_fixture vpp_udp_fixture (by decide) (by decide) (by decide)
    (by decide) (by decide) rfl rfl (by decide) (by decide) (by decide)

theorem pack16_length (x : Nat) : (pack16 x).length = 2 := rfl

/-- C9: send_reply chooses the destination port by the wrapping of the
relayed message (server port when itself relay-wrapped, else client port),
writes the eight-byte envelope (interface index, action 0) followed by
Ethernet(destination = client MAC, source = interface MAC, ethertype
0x86DD) / IPv6(traffic class 0xc0, flow label 0, next header 17, hop limit
63, source = reply-from, destination = peer) / UDP(source port = server
port) with the checksum recomputed against that IPv6 packet, and reports
success exactly when the channel accepted the full byte count, as a
boolean. -/
theorem send_reply_spec (r : VPPReplier) (o : OutgoingMessage) (sent_length : Nat) :
    (r.send_reply o sent_length).2 =
      pack_i32 r.interface_index ++ pack_i32 0 ++
      (r.client_mac_address ++ r.interface_mac_address ++ pack16 0x86DD ++
       ([0x6c, 0, 0, 0] ++
        pack16 (o.relayed_message_bytes.length + 8) ++ [17, 63] ++
        r.reply_from ++ o.peer_address ++
        (pack16 SERVER_PORT ++
         pack16 (if o.relayed_is_relay_reply then SERVER_PORT else CLIENT_PORT) ++
         pack16 (o.relayed_message_bytes.length + 8) ++
         pack16 (UDP.calculate_checksum
           { source_port := SERVER_PORT,
             destination_port :=
               if o.relayed_is_relay_reply then SERVER_PORT else CLIENT_PORT,
             checksum := 0, payload := o.relayed_message_bytes }
           { traffic_class := 0xc0, flow_label := 0, next_header := 17,
             hop_limit := 63, source := r.reply_from,
             destination := o.peer_address,
             payload := .udp
               { source_port := SERVER_PORT,
                 destination_port :=
                   if o.relayed_is_relay_reply then SERVER_PORT else CLIENT_PORT,
                 checksum := 0, payload := o.relayed_message_bytes } }) ++
         o.relayed_message_bytes))) ∧
    ((r.send_reply o sent_length).1 = true ↔
      sent_length = (r.send_reply o sent_length).2.length) := by
  constructor
  · simp [VPPReplier.send_reply, Ethernet.save, L3.save, IPv6.save, L4.save,
      UDP.save, UDP.length, pack16_length]
    congr 1
    omega
  · simp [VPPReplier.send_reply]
    constructor
    · intro h
      omega
    · intro h
      omega
